import Mathlib

/-!
Shallow embedding of `src/server.js` (carbon-trace-server): an Express app over
SQLite with two tables (`orders`, `order_items`), five CRUD endpoints for
orders, and an AI prompt proxy endpoint with local fallbacks.

Modelling decisions (all from the source):
* SQLite REAL columns are modelled as `ℚ`, INTEGER columns as `ℤ` or `ℕ`.
* `timestamp DATETIME DEFAULT CURRENT_TIMESTAMP` is modelled by a store clock
  (`Store.clock : ℕ`) that strictly increases on each insert into `orders`.
* `AUTOINCREMENT` primary keys are modelled by `nextOrderId` / `nextItemId`
  counters starting at 1.
* Each SQLite statement that has an error callback in the source takes an
  `Option String` parameter: `none` means the statement succeeds, `some m`
  means it fails with error message `m`, and the handler takes the
  corresponding error branch.  The per-item `stmt.run` calls in the source
  have no callbacks (fire-and-forget), so their failures are not modelled as
  surfaced errors, matching the source.
* `json_group_array(json_object(...))` over the LEFT JOIN: for an order with
  no items the join yields one NULL-extended row, so the aggregate produces a
  one-element array containing an object whose fields are all SQL NULL.  This
  is modelled by `ItemObj` with `Option`-valued fields and `nullItemObj`.
* The SQLite foreign key on `order_items.orderId` is declarative only: the
  source never enables `PRAGMA foreign_keys`, so inserts of orphan rows
  succeed, and the model performs them unconditionally, as the code does.
-/

/-- A row of the `orders` table (server.js lines 30-36):
id, customerName, totalPrice, totalCarbonSaved, timestamp. -/
structure OrderRow where
  id : ℕ
  customerName : String
  totalPrice : ℚ
  totalCarbonSaved : ℚ
  timestamp : ℕ
deriving DecidableEq, Repr

/-- A row of the `order_items` table (server.js lines 39-47):
id, orderId, itemName, unitPrice, quantity, carbonSaved. -/
structure ItemRow where
  id : ℕ
  orderId : ℕ
  itemName : String
  unitPrice : ℚ
  quantity : ℤ
  carbonSaved : ℚ
deriving DecidableEq, Repr

/-- The database state: both tables plus the autoincrement counters and the
clock used for `CURRENT_TIMESTAMP`. -/
structure Store where
  orders : List OrderRow
  items : List ItemRow
  nextOrderId : ℕ
  nextItemId : ℕ
  clock : ℕ
deriving DecidableEq, Repr

/-- The store right after the two `CREATE TABLE IF NOT EXISTS` statements. -/
def emptyStore : Store := ⟨[], [], 1, 1, 0⟩

/-- One element of the request body `items` array:
itemName, unitPrice, quantity, carbonSaved. -/
structure ItemPayload where
  itemName : String
  unitPrice : ℚ
  quantity : ℤ
  carbonSaved : ℚ
deriving DecidableEq, Repr

/-- The POST/PUT request body `{customerName, items, totalPrice, totalCarbonSaved}`. -/
structure Payload where
  customerName : String
  items : List ItemPayload
  totalPrice : ℚ
  totalCarbonSaved : ℚ
deriving DecidableEq, Repr

/-- One element of the parsed `items` JSON array built by
`json_group_array(json_object('id', oi.id, 'itemName', oi.itemName, ...))`.
Fields are `Option`-valued because a LEFT JOIN with no matching item row
produces SQL NULL in every `oi.*` column. -/
structure ItemObj where
  id : Option ℕ
  itemName : Option String
  unitPrice : Option ℚ
  quantity : Option ℤ
  carbonSaved : Option ℚ
deriving DecidableEq, Repr

/-- The all-null object that `json_object` produces from the NULL-extended row
of a LEFT JOIN when an order has no items. -/
def nullItemObj : ItemObj := ⟨none, none, none, none, none⟩

/-- The object for an actual `order_items` row. -/
def itemObjOf (it : ItemRow) : ItemObj :=
  ⟨some it.id, some it.itemName, some it.unitPrice, some it.quantity, some it.carbonSaved⟩

/-- One order as returned by the list/read queries: `o.*` plus the parsed
`items` array. -/
structure OrderJson where
  id : ℕ
  customerName : String
  totalPrice : ℚ
  totalCarbonSaved : ℚ
  timestamp : ℕ
  items : List ItemObj
deriving DecidableEq, Repr

/-- The `data` object echoed by the create endpoint (server.js lines 119-126):
generated id, the request fields echoed back, and a timestamp. -/
structure CreatedData where
  id : ℕ
  customerName : String
  totalPrice : ℚ
  totalCarbonSaved : ℚ
  items : List ItemPayload
  timestamp : ℕ
deriving DecidableEq, Repr

/-- JSON body of a response from one of the five order endpoints. -/
inductive RespBody where
  | listOk (message : String) (data : List OrderJson)
  | createOk (message : String) (data : CreatedData)
  | readOk (message : String) (data : Option OrderJson)
  | updateOk (message : String) (changes : ℕ)
  | deleteOk (message : String) (changes : ℕ)
  | err (msg : String)
deriving DecidableEq, Repr

/-- An HTTP response: status code and JSON body. -/
structure HResp where
  status : ℕ
  body : RespBody
deriving DecidableEq, Repr

/-- The rows produced for the supplied items by the prepared
`INSERT INTO order_items ...` statement, starting from item id `nid`,
all referencing order `oid` (server.js lines 102-109 and 194-201). -/
def insertItems (nid : ℕ) (oid : ℕ) : List ItemPayload → List ItemRow
  | [] => []
  | it :: rest =>
      ⟨nid, oid, it.itemName, it.unitPrice, it.quantity, it.carbonSaved⟩ ::
        insertItems (nid + 1) oid rest

/-- The row built for order `o` by
`SELECT o.*, json_group_array(json_object(...)) ... LEFT JOIN order_items oi
ON o.id = oi.orderId GROUP BY o.id`, then `JSON.parse`d: the order columns
plus its item objects — or the single all-null object when the order has no
items, because the LEFT JOIN still emits one NULL-extended row for the group. -/
def orderJson (s : Store) (o : OrderRow) : OrderJson :=
  let its := s.items.filter (fun it => it.orderId == o.id)
  ⟨o.id, o.customerName, o.totalPrice, o.totalCarbonSaved, o.timestamp,
    if its.isEmpty then [nullItemObj] else its.map itemObjOf⟩

/-- The comparison realised by `ORDER BY o.timestamp DESC`: `a` may come
before `b` when `a`'s timestamp is at least `b`'s. -/
def tsGE (a b : OrderRow) : Prop := b.timestamp ≤ a.timestamp

instance : DecidableRel tsGE := fun a b => Nat.decLe b.timestamp a.timestamp

instance : IsTotal OrderRow tsGE := ⟨fun a b => le_total b.timestamp a.timestamp⟩

instance : IsTrans OrderRow tsGE := ⟨fun _ _ _ hab hbc => le_trans hbc hab⟩

/-- `ORDER BY o.timestamp DESC` (server.js line 64): sort rows so that larger
timestamps come first. -/
def sortByTsDesc (l : List OrderRow) : List OrderRow :=
  l.insertionSort tsGE

/-- `GET /api/orders` (server.js lines 52-81).  `e` is the outcome of the
single `db.all` statement; on error the handler answers status 500 with
`{error: message}`, otherwise 200 with all orders newest-first. -/
def getOrders (s : Store) (e : Option String) : Store × HResp :=
  match e with
  | some m => (s, ⟨500, .err m⟩)
  | none => (s, ⟨200, .listOk "success" ((sortByTsDesc s.orders).map (orderJson s))⟩)

/-- `POST /api/orders` (server.js lines 84-132).  `e₁` is the outcome of the
order-row INSERT, `e₂` of `stmt.finalize`; the per-item `stmt.run` calls carry
no callbacks in the source so they always take effect here.  On the finalize
error the item rows are already inserted. -/
def postOrders (s : Store) (p : Payload) (e₁ e₂ : Option String) : Store × HResp :=
  match e₁ with
  | some m => (s, ⟨400, .err m⟩)
  | none =>
    let oid := s.nextOrderId
    let row : OrderRow := ⟨oid, p.customerName, p.totalPrice, p.totalCarbonSaved, s.clock⟩
    let s₁ : Store := ⟨s.orders ++ [row], s.items ++ insertItems s.nextItemId oid p.items,
      oid + 1, s.nextItemId + p.items.length, s.clock + 1⟩
    match e₂ with
    | some m => (s₁, ⟨400, .err m⟩)
    | none =>
        (s₁, ⟨200, .createOk "success"
          ⟨oid, p.customerName, p.totalPrice, p.totalCarbonSaved, p.items, s.clock⟩⟩)

/-- `GET /api/orders/:id` (server.js lines 135-164).  `db.get` returns the
first (only) row of the grouped query, or nothing when no order has that id;
`data` is the row or absent.  On error: status 400 with `{error: message}`. -/
def getOrder (s : Store) (id : ℕ) (e : Option String) : Store × HResp :=
  match e with
  | some m => (s, ⟨400, .err m⟩)
  | none =>
      (s, ⟨200, .readOk "success" ((s.orders.find? (fun o => o.id == id)).map (orderJson s))⟩)

/-- The effect of `UPDATE orders SET customerName = ?, totalPrice = ?,
totalCarbonSaved = ? WHERE id = ?` on one row. -/
def updateOrderRow (p : Payload) (id : ℕ) (o : OrderRow) : OrderRow :=
  if o.id == id then ⟨o.id, p.customerName, p.totalPrice, p.totalCarbonSaved, o.timestamp⟩
  else o

/-- `PUT /api/orders/:id` (server.js lines 167-218).  Steps: UPDATE the order
row (`e₁`), DELETE its items (`e₂`), prepared INSERT of the supplied items and
`stmt.finalize` (`e₃`).  `this.changes` in the success response is the row
count of the UPDATE step, because the inner callbacks are arrow functions that
keep the UPDATE callback's `this`.  Note the source runs the DELETE and the
INSERTs whether or not any order row matched the id. -/
def putOrder (s : Store) (id : ℕ) (p : Payload) (e₁ e₂ e₃ : Option String) :
    Store × HResp :=
  match e₁ with
  | some m => (s, ⟨400, .err m⟩)
  | none =>
    let changes := s.orders.countP (fun o => o.id == id)
    let s₁ : Store := ⟨s.orders.map (updateOrderRow p id), s.items,
      s.nextOrderId, s.nextItemId, s.clock⟩
    match e₂ with
    | some m => (s₁, ⟨400, .err m⟩)
    | none =>
      let s₂ : Store := ⟨s₁.orders, s₁.items.filter (fun it => !(it.orderId == id)),
        s₁.nextOrderId, s₁.nextItemId, s₁.clock⟩
      let s₃ : Store := ⟨s₂.orders, s₂.items ++ insertItems s₂.nextItemId id p.items,
        s₂.nextOrderId, s₂.nextItemId + p.items.length, s₂.clock⟩
      match e₃ with
      | some m => (s₃, ⟨400, .err m⟩)
      | none => (s₃, ⟨200, .updateOk "success" changes⟩)

/-- `DELETE /api/orders/:id` (server.js lines 221-245).  Steps: DELETE the
items (`e₁`), then DELETE the order row (`e₂`); `this.changes` is the row
count of the order-row DELETE. -/
def deleteOrder (s : Store) (id : ℕ) (e₁ e₂ : Option String) : Store × HResp :=
  match e₁ with
  | some m => (s, ⟨400, .err m⟩)
  | none =>
    let s₁ : Store := ⟨s.orders, s.items.filter (fun it => !(it.orderId == id)),
      s.nextOrderId, s.nextItemId, s.clock⟩
    let changes := s₁.orders.countP (fun o => o.id == id)
    let s₂ : Store := ⟨s₁.orders.filter (fun o => !(o.id == id)), s₁.items,
      s₁.nextOrderId, s₁.nextItemId, s₁.clock⟩
    match e₂ with
    | some m => (s₁, ⟨400, .err m⟩)
    | none => (s₂, ⟨200, .deleteOk "deleted" changes⟩)

/-! ### AI prompt endpoint (`POST /api/prompts`, server.js lines 248-293) -/

/-- `pat` is a prefix of `l` (character lists), as used by substring search. -/
def chListPrefix : List Char → List Char → Bool
  | [], _ => true
  | _ :: _, [] => false
  | a :: as, b :: bs => a == b && chListPrefix as bs

/-- JS `String.prototype.includes`: does `pat` occur contiguously in `l`? -/
def chListIncl (pat : List Char) : List Char → Bool
  | [] => pat.isEmpty
  | c :: cs => chListPrefix pat (c :: cs) || chListIncl pat cs

/-- `s.includes(pat)` from the source's `prompt.includes(...)` checks. -/
def strIncludes (s pat : String) : Bool := chListIncl pat.data s.data

/-- The substring the source tests first: "Estimate the carbon footprint". -/
def estimateMarker : String := "Estimate the carbon footprint"

/-- The substring the source tests second. -/
def suggestMarker : String := "suggestions to reduce carbon footprint"

/-- The apostrophe character, kept out of string literals. -/
def apos : String := String.mk [Char.ofNat 39]

/-- The fixed three-item advice string (server.js lines 263 and 284). -/
def adviceText : String :=
  "1. Consider choosing more sustainable alternatives. 2. Reduce consumption where possible. 3. Look for locally produced options to reduce transportation emissions."

/-- The fixed apology string (server.js lines 267 and 289). -/
def apologyText : String :=
  "I" ++ apos ++ "m unable to provide a response at this time. Please try again later."

/-- JS `x.toFixed(2)` on a nonnegative number, as the rational value the
resulting decimal string denotes: round to the nearest multiple of 1/100,
ties away from zero. -/
def toFixed2val (x : ℚ) : ℚ := (⌊x * 100 + 1 / 2⌋ : ℚ) / 100

/-- `Math.random() * 5 + 0.5` followed by `.toFixed(2)` (server.js lines
259-260 and 280-281), with `r` the value of `Math.random()` (in `[0,1)`).
The resulting two-decimal string is represented by its rational value. -/
def fallbackEstimate (r : ℚ) : ℚ := toFixed2val (r * 5 + 1 / 2)

/-- The response value of `/api/prompts`: either the two-decimal numeric
string produced by `toFixed(2)` (represented by its rational value) or a
fixed text. -/
inductive RespVal where
  | num (q : ℚ)
  | text (s : String)
deriving DecidableEq, Repr

/-- A `/api/prompts` response: status, `response` field, and the optional
`error` field (present only on the 500 path). -/
structure PromptResp where
  status : ℕ
  response : RespVal
  error : Option String
deriving DecidableEq, Repr

/-- The no-credential branch (server.js lines 253-270): classify the prompt by
substring and answer 200 with the matching fallback. `r` is the value
`Math.random()` returns in the estimate branch. -/
def promptsNoCred (prompt : String) (r : ℚ) : PromptResp :=
  if strIncludes prompt estimateMarker then ⟨200, .num (fallbackEstimate r), none⟩
  else if strIncludes prompt suggestMarker then ⟨200, .text adviceText, none⟩
  else ⟨200, .text apologyText, none⟩

/-- The catch branch taken when the provider call fails (server.js lines
274-292): the same substring classification, but the unclassified case
answers 500 with the error message alongside the apology text. -/
def promptsProviderFail (prompt : String) (errMsg : String) (r : ℚ) : PromptResp :=
  if strIncludes prompt estimateMarker then ⟨200, .num (fallbackEstimate r), none⟩
  else if strIncludes prompt suggestMarker then ⟨200, .text adviceText, none⟩
  else ⟨500, .text apologyText, some errMsg⟩

/-! ### Derived notions used by the claims -/

/-- The referential-integrity invariant of the spec: every `order_items` row
references an existing `orders` row. -/
def storeInv (s : Store) : Prop :=
  ∀ it ∈ s.items, ∃ o ∈ s.orders, o.id = it.orderId

instance (s : Store) : Decidable (storeInv s) := by
  unfold storeInv
  infer_instance

/-- The four client-supplied columns of a stored `order_items` row. -/
def itemFieldsRow (it : ItemRow) : String × ℚ × ℤ × ℚ :=
  (it.itemName, it.unitPrice, it.quantity, it.carbonSaved)

/-- The four fields of a request item. -/
def itemFieldsPayload (it : ItemPayload) : String × ℚ × ℤ × ℚ :=
  (it.itemName, it.unitPrice, it.quantity, it.carbonSaved)

/-- The four client-supplied fields of a returned item object. -/
def itemObjFields (io : ItemObj) : Option String × Option ℚ × Option ℤ × Option ℚ :=
  (io.itemName, io.unitPrice, io.quantity, io.carbonSaved)

/-- What a request item looks like after a round trip through the store and
the JSON aggregation. -/
def itemObjOfPayload (it : ItemPayload) : Option String × Option ℚ × Option ℤ × Option ℚ :=
  (some it.itemName, some it.unitPrice, some it.quantity, some it.carbonSaved)

/-- A store holding one order (id 1) and no items, as produced by creating an
order with an empty `items` array. -/
def oneOrderNoItems : Store := ⟨[⟨1, "Alice", 20, 3 / 2, 0⟩], [], 2, 1, 1⟩

/-! ### Theorems -/

/-- The rounded fallback estimate stays within `[0.5, 5.5]` for any value of
the random source in `[0, 1)`. -/
lemma fallbackEstimate_bounds (r : ℚ) (h0 : 0 ≤ r) (h1 : r < 1) :
    1 / 2 ≤ fallbackEstimate r ∧ fallbackEstimate r ≤ 11 / 2 := by
  unfold fallbackEstimate toFixed2val
  have hl : (50 : ℤ) ≤ ⌊(r * 5 + 1 / 2) * 100 + 1 / 2⌋ := by
    rw [Int.le_floor]
    push_cast
    linarith
  have hu : ⌊(r * 5 + 1 / 2) * 100 + 1 / 2⌋ ≤ 550 := by
    have h : ⌊(r * 5 + 1 / 2) * 100 + 1 / 2⌋ < 551 := by
      rw [Int.floor_lt]
      push_cast
      linarith
    omega
  have hl2 : ((50 : ℚ)) ≤ (⌊(r * 5 + 1 / 2) * 100 + 1 / 2⌋ : ℚ) := by exact_mod_cast hl
  have hu2 : ((⌊(r * 5 + 1 / 2) * 100 + 1 / 2⌋ : ℚ)) ≤ 550 := by exact_mod_cast hu
  constructor
  · linarith
  · linarith

/-- Claim C9: with no credential and a prompt containing "Estimate the carbon
footprint", the proxy answers 200 with a two-decimal numeric string whose
value lies in `[0.5, 5.5]`, for every value of the random source. -/
theorem prompts_estimate_range (p : String) (r : ℚ)
    (hp : strIncludes p estimateMarker = true) (h0 : 0 ≤ r) (h1 : r < 1) :
    (promptsNoCred p r).status = 200 ∧
    ∃ v, (promptsNoCred p r).response = RespVal.num v ∧
      1 / 2 ≤ v ∧ v ≤ 11 / 2 ∧ ∃ n : ℤ, v = (n : ℚ) / 100 := by
  have hred : promptsNoCred p r = ⟨200, RespVal.num (fallbackEstimate r), none⟩ := by
    unfold promptsNoCred
    rw [if_pos hp]
  rw [hred]
  exact ⟨rfl, fallbackEstimate r, rfl, (fallbackEstimate_bounds r h0 h1).1,
    (fallbackEstimate_bounds r h0 h1).2, ⌊(r * 5 + 1 / 2) * 100 + 1 / 2⌋, rfl⟩

/-- Witness for C9 at the marker prompt itself and random value 0. -/
theorem prompts_estimate_range_witness :
    (promptsNoCred estimateMarker 0).status = 200 ∧
    ∃ v, (promptsNoCred estimateMarker 0).response = RespVal.num v ∧
      1 / 2 ≤ v ∧ v ≤ 11 / 2 ∧ ∃ n : ℤ, v = (n : ℚ) / 100 :=
  prompts_estimate_range estimateMarker 0 (by decide) (by norm_num) (by norm_num)

/-- Claim C8: on provider failure the proxy applies the same substring
classification as the no-credential path (identical `response` value), with
status 500 exactly when the prompt matches neither marker — then the error
message rides alongside the apology text — and a masking 200 with no error
field when either marker matches. -/
theorem prompts_provider_fail_spec (p e : String) (r : ℚ) :
    (promptsProviderFail p e r).response = (promptsNoCred p r).response ∧
    ((promptsProviderFail p e r).status = 500 ↔
      (strIncludes p estimateMarker = false ∧ strIncludes p suggestMarker = false)) ∧
    ((strIncludes p estimateMarker = true ∨ strIncludes p suggestMarker = true) →
      (promptsProviderFail p e r).status = 200 ∧ (promptsProviderFail p e r).error = none) ∧
    (strIncludes p estimateMarker = false → strIncludes p suggestMarker = false →
      promptsProviderFail p e r = ⟨500, RespVal.text apologyText, some e⟩) := by
  unfold promptsProviderFail promptsNoCred
  cases hE : strIncludes p estimateMarker <;> cases hS : strIncludes p suggestMarker <;>
    simp [hE, hS]

/-- Witness for C8 at an unclassified concrete prompt. -/
theorem prompts_provider_fail_spec_witness :
    (promptsProviderFail "x" "boom" 0).response = (promptsNoCred "x" 0).response ∧
    ((promptsProviderFail "x" "boom" 0).status = 500 ↔
      (strIncludes "x" estimateMarker = false ∧ strIncludes "x" suggestMarker = false)) ∧
    ((strIncludes "x" estimateMarker = true ∨ strIncludes "x" suggestMarker = true) →
      (promptsProviderFail "x" "boom" 0).status = 200 ∧
        (promptsProviderFail "x" "boom" 0).error = none) ∧
    (strIncludes "x" estimateMarker = false → strIncludes "x" suggestMarker = false →
      promptsProviderFail "x" "boom" 0 = ⟨500, RespVal.text apologyText, some "boom"⟩) :=
  prompts_provider_fail_spec "x" "boom" 0

/-- Claim C10: a prompt containing both markers takes the estimate branch in
both fallback paths — the numeric response, never the advice string. -/
theorem prompts_both_markers_estimate (p e : String) (r : ℚ)
    (hE : strIncludes p estimateMarker = true)
    (_hS : strIncludes p suggestMarker = true) :
    promptsNoCred p r = ⟨200, RespVal.num (fallbackEstimate r), none⟩ ∧
    promptsProviderFail p e r = ⟨200, RespVal.num (fallbackEstimate r), none⟩ ∧
    (promptsNoCred p r).response ≠ RespVal.text adviceText ∧
    (promptsProviderFail p e r).response ≠ RespVal.text adviceText := by
  unfold promptsNoCred promptsProviderFail
  simp [hE]

/-- Witness for C10 at a concrete prompt containing both markers. -/
theorem prompts_both_markers_estimate_witness :
    promptsNoCred "Estimate the carbon footprint suggestions to reduce carbon footprint" 0 =
      ⟨200, RespVal.num (fallbackEstimate 0), none⟩ ∧
    promptsProviderFail "Estimate the carbon footprint suggestions to reduce carbon footprint" "boom" 0 =
      ⟨200, RespVal.num (fallbackEstimate 0), none⟩ ∧
    (promptsNoCred "Estimate the carbon footprint suggestions to reduce carbon footprint" 0).response ≠
      RespVal.text adviceText ∧
    (promptsProviderFail "Estimate the carbon footprint suggestions to reduce carbon footprint" "boom" 0).response ≠
      RespVal.text adviceText :=
  prompts_both_markers_estimate _ "boom" 0 (by decide) (by decide)

/-- Claim C7: reading an id with no matching order answers 200 with message
"success" and an absent `data` payload, and leaves the store unchanged. -/
theorem read_missing_id_success (s : Store) (id : ℕ)
    (h : ∀ o ∈ s.orders, o.id ≠ id) :
    getOrder s id none = (s, ⟨200, RespBody.readOk "success" none⟩) := by
  unfold getOrder
  have hf : s.orders.find? (fun o => o.id == id) = none := by
    rw [List.find?_eq_none]
    intro o ho
    simpa using h o ho
  simp [hf]

/-- Witness for C7 on the empty store. -/
theorem read_missing_id_success_witness :
    getOrder emptyStore 7 none = (emptyStore, ⟨200, RespBody.readOk "success" none⟩) :=
  read_missing_id_success emptyStore 7 (by simp [emptyStore])

lemma insertItems_orderId (oid : ℕ) (ps : List ItemPayload) :
    ∀ nid, ∀ it ∈ insertItems nid oid ps, it.orderId = oid := by
  induction ps with
  | nil => intro nid it hit; cases hit
  | cons a rest ih =>
      intro nid it hit
      rcases List.mem_cons.1 hit with h | h
      · rw [h]
      · exact ih (nid + 1) it h

lemma insertItems_length (oid : ℕ) (ps : List ItemPayload) :
    ∀ nid, (insertItems nid oid ps).length = ps.length := by
  induction ps with
  | nil => intro nid; rfl
  | cons a rest ih => intro nid; simp [insertItems, ih (nid + 1)]

lemma insertItems_fields (oid : ℕ) (ps : List ItemPayload) :
    ∀ nid, (insertItems nid oid ps).map itemFieldsRow = ps.map itemFieldsPayload := by
  induction ps with
  | nil => intro nid; rfl
  | cons a rest ih => intro nid; simp [insertItems, itemFieldsRow, itemFieldsPayload, ih (nid + 1)]

lemma insertItems_objFields (oid : ℕ) (ps : List ItemPayload) :
    ∀ nid, ((insertItems nid oid ps).map itemObjOf).map itemObjFields
      = ps.map itemObjOfPayload := by
  induction ps with
  | nil => intro nid; rfl
  | cons a rest ih =>
      intro nid
      simp [insertItems, itemObjOf, itemObjFields, itemObjOfPayload, ih (nid + 1)]

lemma updateOrderRow_id (p : Payload) (id : ℕ) (o : OrderRow) :
    (updateOrderRow p id o).id = o.id := by
  unfold updateOrderRow
  by_cases h : o.id == id
  · simp [h]
  · simp [h]

/-- Claim C1 (amended): the parent-order invariant is preserved by every
operation at every step outcome, mid-sequence storage failures included —
List and Read never change the store; Create's items carry the freshly
inserted order's id whether or not finalize then fails; Delete removes items
before the parent row, so its intermediate items-deleted-only state still
satisfies the invariant; and Update preserves it whenever an earlier step
already failed, the item list is empty, or an order row with the id exists.
The one exception: Update that reaches its item-insert step (both earlier
steps succeeded) on an id carried by no order row, with a nonempty item
list, orphans the inserted items — see the counterexample. -/
theorem crud_preserves_parent_inv (s : Store) (id : ℕ) (p : Payload)
    (e₁ e₂ e₃ : Option String) (h : storeInv s) :
    storeInv (getOrders s e₁).1 ∧
    storeInv (getOrder s id e₁).1 ∧
    storeInv (postOrders s p e₁ e₂).1 ∧
    storeInv (deleteOrder s id e₁ e₂).1 ∧
    (e₁.isSome = true ∨ e₂.isSome = true ∨ p.items = [] ∨ (∃ o ∈ s.orders, o.id = id) →
      storeInv (putOrder s id p e₁ e₂ e₃).1) := by
  have hupd : ∀ it ∈ s.items, ∃ o ∈ s.orders.map (updateOrderRow p id), o.id = it.orderId := by
    intro it hit
    obtain ⟨o, ho, hoid⟩ := h it hit
    exact ⟨updateOrderRow p id o, List.mem_map.2 ⟨o, ho, rfl⟩,
      (updateOrderRow_id p id o).trans hoid⟩
  refine ⟨?_, ?_, ?_, ?_, ?_⟩
  · cases e₁ <;> exact h
  · cases e₁ <;> exact h
  · -- create: the inserted items reference the just-inserted order row,
    -- whether or not finalize fails afterwards
    cases e₁ with
    | some m => exact h
    | none =>
        have hs₁ : ∀ it ∈ s.items ++ insertItems s.nextItemId s.nextOrderId p.items,
            ∃ o ∈ s.orders ++ [(⟨s.nextOrderId, p.customerName, p.totalPrice,
              p.totalCarbonSaved, s.clock⟩ : OrderRow)], o.id = it.orderId := by
          intro it hit
          rcases List.mem_append.1 hit with hold | hnew
          · obtain ⟨o, ho, hoid⟩ := h it hold
            exact ⟨o, List.mem_append_left _ ho, hoid⟩
          · exact ⟨⟨s.nextOrderId, p.customerName, p.totalPrice, p.totalCarbonSaved, s.clock⟩,
              List.mem_append_right _ (List.mem_singleton.2 rfl),
              (insertItems_orderId s.nextOrderId p.items s.nextItemId it hnew).symm⟩
        cases e₂ <;> exact hs₁
  · -- delete: items go first, so the mid-failure state has only lost items
    cases e₁ with
    | some m => exact h
    | none =>
        cases e₂ with
        | some m =>
            intro it hit
            exact h it (List.mem_filter.1 hit).1
        | none =>
            intro it hit
            have hmem := List.mem_filter.1 hit
            obtain ⟨o, ho, hoid⟩ := h it hmem.1
            refine ⟨o, List.mem_filter.2 ⟨ho, ?_⟩, hoid⟩
            have hne : it.orderId ≠ id := by simpa using hmem.2
            simp [hoid, hne]
  · -- update: scalar overwrite preserves ids; the item rewrite needs an
    -- order row carrying the id (or nothing to insert)
    intro hyp
    cases e₁ with
    | some m => exact h
    | none =>
        cases e₂ with
        | some m => exact hupd
        | none =>
            simp only [Option.isSome_none, Bool.false_eq_true, false_or] at hyp
            have hs₃ : ∀ it ∈ (s.items.filter (fun it => !(it.orderId == id)))
                ++ insertItems s.nextItemId id p.items,
                ∃ o ∈ s.orders.map (updateOrderRow p id), o.id = it.orderId := by
              intro it hit
              rcases List.mem_append.1 hit with hold | hnew
              · exact hupd it (List.mem_filter.1 hold).1
              · rcases hyp with hempty | ⟨o₀, ho₀, hid₀⟩
                · rw [hempty] at hnew
                  cases hnew
                · exact ⟨updateOrderRow p id o₀, List.mem_map.2 ⟨o₀, ho₀, rfl⟩,
                    (updateOrderRow_id p id o₀).trans
                      (hid₀.trans (insertItems_orderId id p.items s.nextItemId it hnew).symm)⟩
            cases e₃ <;> exact hs₃

/-- Witness for C1's amended theorem at a concrete store, with a failing
second step injected into each multi-step operation. -/
theorem crud_preserves_parent_inv_witness :
    storeInv (getOrders oneOrderNoItems none).1 ∧
    storeInv (getOrder oneOrderNoItems 1 none).1 ∧
    storeInv (postOrders oneOrderNoItems ⟨"Bob", [⟨"Cup", 5, 1, 1⟩], 5, 1⟩
        none (some "boom")).1 ∧
    storeInv (deleteOrder oneOrderNoItems 1 none (some "boom")).1 ∧
    ((none : Option String).isSome = true ∨ (some "boom" : Option String).isSome = true ∨
        (⟨"Bob", [⟨"Cup", 5, 1, 1⟩], 5, 1⟩ : Payload).items = [] ∨
        (∃ o ∈ oneOrderNoItems.orders, o.id = 1) →
      storeInv (putOrder oneOrderNoItems 1 ⟨"Bob", [⟨"Cup", 5, 1, 1⟩], 5, 1⟩
        none (some "boom") none).1) :=
  crud_preserves_parent_inv oneOrderNoItems 1 ⟨"Bob", [⟨"Cup", 5, 1, 1⟩], 5, 1⟩
    none (some "boom") none (by decide)

/-- Claim C1 counterexample: updating a nonexistent order id with a nonempty
item list inserts items whose `orderId` matches no order row, violating the
invariant on a reachable store (the empty store). -/
theorem update_nonexistent_id_orphans_cex :
    ¬ storeInv (putOrder emptyStore 1 ⟨"Alice", [⟨"Mug", 10, 2, 3 / 2⟩], 20, 3 / 2⟩
        none none none).1 := by
  decide

lemma filter_pred_of_filter_not {α : Type} (q : α → Bool) (l : List α) :
    (l.filter (fun a => !(q a))).filter q = [] := by
  rw [List.filter_eq_nil_iff]
  intro a ha
  have := (List.mem_filter.1 ha).2
  simp at this
  simp [this]

lemma filter_not_idem {α : Type} (q : α → Bool) (l : List α) :
    (l.filter (fun a => !(q a))).filter (fun a => !(q a)) = l.filter (fun a => !(q a)) := by
  rw [List.filter_eq_self]
  intro a ha
  exact (List.mem_filter.1 ha).2

lemma insertItems_filter_self (oid : ℕ) (ps : List ItemPayload) (nid : ℕ) :
    (insertItems nid oid ps).filter (fun it => it.orderId == oid) = insertItems nid oid ps := by
  rw [List.filter_eq_self]
  intro it hit
  simp [insertItems_orderId oid ps nid it hit]

lemma insertItems_filter_not (oid : ℕ) (ps : List ItemPayload) (nid : ℕ) :
    (insertItems nid oid ps).filter (fun it => !(it.orderId == oid)) = [] := by
  rw [List.filter_eq_nil_iff]
  intro it hit
  simp [insertItems_orderId oid ps nid it hit]

/-- Claim C4: Update overwrites the matching order row's scalar fields (and no
other row), replaces the item set for the id with exactly the supplied items,
and reports `changes` as the row count of the order-row UPDATE step alone —
the same response for any payload, independent of the item list. -/
theorem update_replaces_items_and_counts (s : Store) (id : ℕ) (p : Payload) :
    ((putOrder s id p none none none).1.items.filter (fun it => it.orderId == id)).map
        itemFieldsRow = p.items.map itemFieldsPayload ∧
    (putOrder s id p none none none).1.items.filter (fun it => !(it.orderId == id))
        = s.items.filter (fun it => !(it.orderId == id)) ∧
    (∀ o ∈ s.orders, o.id = id →
      (⟨o.id, p.customerName, p.totalPrice, p.totalCarbonSaved, o.timestamp⟩ : OrderRow)
        ∈ (putOrder s id p none none none).1.orders) ∧
    (∀ o ∈ s.orders, o.id ≠ id → o ∈ (putOrder s id p none none none).1.orders) ∧
    (putOrder s id p none none none).2
        = ⟨200, RespBody.updateOk "success" (s.orders.countP (fun o => o.id == id))⟩ ∧
    (∀ q : Payload, (putOrder s id q none none none).2
        = (putOrder s id p none none none).2) := by
  refine ⟨?_, ?_, ?_, ?_, rfl, fun q => rfl⟩
  · show (((s.items.filter (fun it => !(it.orderId == id)))
        ++ insertItems s.nextItemId id p.items).filter (fun it => it.orderId == id)).map
        itemFieldsRow = p.items.map itemFieldsPayload
    rw [List.filter_append, filter_pred_of_filter_not, insertItems_filter_self]
    simp [insertItems_fields]
  · show ((s.items.filter (fun it => !(it.orderId == id)))
        ++ insertItems s.nextItemId id p.items).filter (fun it => !(it.orderId == id))
        = s.items.filter (fun it => !(it.orderId == id))
    rw [List.filter_append, filter_not_idem, insertItems_filter_not, List.append_nil]
  · intro o ho hid
    refine List.mem_map.2 ⟨o, ho, ?_⟩
    unfold updateOrderRow
    rw [if_pos (by simp [hid])]
  · intro o ho hid
    refine List.mem_map.2 ⟨o, ho, ?_⟩
    unfold updateOrderRow
    rw [if_neg (by simp [hid])]

/-- Witness for C4 at a concrete store, id and payload. -/
theorem update_replaces_items_and_counts_witness :
    ((putOrder oneOrderNoItems 1 ⟨"Bob", [⟨"Cup", 5, 1, 1⟩], 5, 1⟩ none none none).1.items.filter
        (fun it => it.orderId == 1)).map itemFieldsRow
        = [(⟨"Cup", 5, 1, 1⟩ : ItemPayload)].map itemFieldsPayload ∧
    (putOrder oneOrderNoItems 1 ⟨"Bob", [⟨"Cup", 5, 1, 1⟩], 5, 1⟩ none none none).1.items.filter
        (fun it => !(it.orderId == 1))
        = oneOrderNoItems.items.filter (fun it => !(it.orderId == 1)) ∧
    (∀ o ∈ oneOrderNoItems.orders, o.id = 1 →
      (⟨o.id, "Bob", 5, 1, o.timestamp⟩ : OrderRow)
        ∈ (putOrder oneOrderNoItems 1 ⟨"Bob", [⟨"Cup", 5, 1, 1⟩], 5, 1⟩ none none none).1.orders) ∧
    (∀ o ∈ oneOrderNoItems.orders, o.id ≠ 1 →
      o ∈ (putOrder oneOrderNoItems 1 ⟨"Bob", [⟨"Cup", 5, 1, 1⟩], 5, 1⟩ none none none).1.orders) ∧
    (putOrder oneOrderNoItems 1 ⟨"Bob", [⟨"Cup", 5, 1, 1⟩], 5, 1⟩ none none none).2
        = ⟨200, RespBody.updateOk "success"
            (oneOrderNoItems.orders.countP (fun o => o.id == 1))⟩ ∧
    (∀ q : Payload, (putOrder oneOrderNoItems 1 q none none none).2
        = (putOrder oneOrderNoItems 1 ⟨"Bob", [⟨"Cup", 5, 1, 1⟩], 5, 1⟩ none none none).2) :=
  update_replaces_items_and_counts oneOrderNoItems 1 ⟨"Bob", [⟨"Cup", 5, 1, 1⟩], 5, 1⟩

lemma find?_append_left_none {α : Type} (q : α → Bool) (l₁ l₂ : List α)
    (h : ∀ a ∈ l₁, q a = false) : (l₁ ++ l₂).find? q = l₂.find? q := by
  rw [List.find?_append]
  have : l₁.find? q = none := by
    rw [List.find?_eq_none]
    intro a ha
    simp [h a ha]
  rw [this]
  rfl

/-- Claim C5 (amended): on a store where the upcoming AUTOINCREMENT order id
is referenced by no existing order row and no existing item row, creating an
order with N ≥ 1 items and reading back the returned id yields exactly N
items whose itemName, unitPrice, quantity and carbonSaved equal the supplied
values.  Both restrictions are necessary: a zero-item create reads back the
one-element null placeholder instead of zero items, and the freshness
condition can fail on reachable stores — an Update addressed to a
not-yet-assigned id plants orphan items that a later create silently adopts
(see the counterexample's second half). -/
theorem create_then_read_roundtrip (s : Store) (p : Payload)
    (hfo : ∀ o ∈ s.orders, o.id ≠ s.nextOrderId)
    (hfi : ∀ it ∈ s.items, it.orderId ≠ s.nextOrderId)
    (hne : p.items ≠ []) :
    (postOrders s p none none).2 = ⟨200, RespBody.createOk "success"
        ⟨s.nextOrderId, p.customerName, p.totalPrice, p.totalCarbonSaved, p.items, s.clock⟩⟩ ∧
    ∃ row, (getOrder (postOrders s p none none).1 s.nextOrderId none).2
        = ⟨200, RespBody.readOk "success" (some row)⟩ ∧
      row.items.length = p.items.length ∧
      row.items.map itemObjFields = p.items.map itemObjOfPayload := by
  set oid := s.nextOrderId with hoid
  set row₀ : OrderRow := ⟨oid, p.customerName, p.totalPrice, p.totalCarbonSaved, s.clock⟩
    with hrow₀
  set s₁ : Store := ⟨s.orders ++ [row₀], s.items ++ insertItems s.nextItemId oid p.items,
    oid + 1, s.nextItemId + p.items.length, s.clock + 1⟩ with hs₁
  have hpost : postOrders s p none none = (s₁, ⟨200, RespBody.createOk "success"
      ⟨oid, p.customerName, p.totalPrice, p.totalCarbonSaved, p.items, s.clock⟩⟩) := rfl
  refine ⟨by rw [hpost], orderJson s₁ row₀, ?_, ?_, ?_⟩
  · rw [hpost]
    show (s₁, (⟨200, RespBody.readOk "success"
        ((s₁.orders.find? (fun o => o.id == oid)).map (orderJson s₁))⟩ : HResp)).2
      = ⟨200, RespBody.readOk "success" (some (orderJson s₁ row₀))⟩
    have hfind : s₁.orders.find? (fun o => o.id == oid) = some row₀ := by
      show (s.orders ++ [row₀]).find? (fun o => o.id == oid) = some row₀
      rw [find?_append_left_none _ s.orders [row₀] (fun o ho => by simp [hfo o ho])]
      simp [hrow₀]
    rw [hfind]
    rfl
  all_goals
    have hits : s₁.items.filter (fun it => it.orderId == oid)
        = insertItems s.nextItemId oid p.items := by
      show (s.items ++ insertItems s.nextItemId oid p.items).filter
          (fun it => it.orderId == oid) = insertItems s.nextItemId oid p.items
      rw [List.filter_append, insertItems_filter_self]
      have : s.items.filter (fun it => it.orderId == oid) = [] := by
        rw [List.filter_eq_nil_iff]
        intro it hit
        simp [hfi it hit]
      rw [this, List.nil_append]
    have hlen : (insertItems s.nextItemId oid p.items).length = p.items.length :=
      insertItems_length oid p.items s.nextItemId
    have hnonempty : (s₁.items.filter (fun it => it.orderId == oid)).isEmpty = false := by
      rw [hits, List.isEmpty_eq_false]
      intro h
      apply hne
      have hl := congrArg List.length h
      rw [hlen] at hl
      exact List.length_eq_zero.1 hl
  · -- length
    show (orderJson s₁ row₀).items.length = p.items.length
    unfold orderJson
    simp only [hrow₀, hnonempty, Bool.false_eq_true, if_false, List.length_map]
    rw [hits, hlen]
  · -- fields
    show (orderJson s₁ row₀).items.map itemObjFields = p.items.map itemObjOfPayload
    unfold orderJson
    simp only [hrow₀, hnonempty, Bool.false_eq_true, if_false]
    rw [hits, insertItems_objFields]

/-- Witness for C5's amended theorem: one concrete create-then-read. -/
theorem create_then_read_roundtrip_witness :
    (postOrders emptyStore ⟨"Alice", [⟨"Mug", 10, 2, 3 / 2⟩], 20, 3 / 2⟩ none none).2
        = ⟨200, RespBody.createOk "success"
        ⟨emptyStore.nextOrderId, "Alice", 20, 3 / 2, [⟨"Mug", 10, 2, 3 / 2⟩],
          emptyStore.clock⟩⟩ ∧
    ∃ row, (getOrder (postOrders emptyStore ⟨"Alice", [⟨"Mug", 10, 2, 3 / 2⟩], 20, 3 / 2⟩
          none none).1 emptyStore.nextOrderId none).2
        = ⟨200, RespBody.readOk "success" (some row)⟩ ∧
      row.items.length = ([⟨"Mug", 10, 2, 3 / 2⟩] : List ItemPayload).length ∧
      row.items.map itemObjFields
        = ([⟨"Mug", 10, 2, 3 / 2⟩] : List ItemPayload).map itemObjOfPayload :=
  create_then_read_roundtrip emptyStore ⟨"Alice", [⟨"Mug", 10, 2, 3 / 2⟩], 20, 3 / 2⟩
    (by simp [emptyStore]) (by simp [emptyStore]) (by simp)

/-- Claim C5 counterexample, both failure modes of the claim as stated:
creating an order with zero items reads back one (placeholder) item, not
zero; and on the reachable store left by updating the not-yet-assigned id 1
with one item (which orphans that item), creating an order with one item
reads back two items. -/
theorem create_then_read_mismatch_cex :
    (∃ row, (getOrder (postOrders emptyStore ⟨"Alice", [], 20, 3 / 2⟩ none none).1 1 none).2
        = ⟨200, RespBody.readOk "success" (some row)⟩ ∧
      row.items = [nullItemObj] ∧ row.items.length ≠ ([] : List ItemPayload).length) ∧
    (∃ row, (getOrder (postOrders
          (putOrder emptyStore 1 ⟨"X", [⟨"Ghost", 1, 1, 0⟩], 1, 0⟩ none none none).1
          ⟨"Alice", [⟨"Mug", 10, 2, 3 / 2⟩], 20, 3 / 2⟩ none none).1 1 none).2
        = ⟨200, RespBody.readOk "success" (some row)⟩ ∧
      row.items.length = 2 ∧
      row.items.length ≠ ([⟨"Mug", 10, 2, 3 / 2⟩] : List ItemPayload).length) := by
  constructor
  · refine ⟨⟨1, "Alice", 20, 3 / 2, 0, [nullItemObj]⟩, ?_, rfl, by decide⟩
    rfl
  · refine ⟨⟨1, "Alice", 20, 3 / 2, 0,
      [⟨some 1, some "Ghost", some 1, some 1, some 0⟩,
       ⟨some 2, some "Mug", some 10, some 2, some (3 / 2)⟩]⟩, ?_, rfl, by decide⟩
    rfl

/-- Claim C2 (amended): for an order with zero stored items, both List and
Read materialise the `items` field as the one-element all-null placeholder
array `[nullItemObj]` — present and non-null, but not the empty sequence. -/
theorem zero_items_placeholder (s : Store) (o : OrderRow) (ho : o ∈ s.orders)
    (hempty : s.items.filter (fun it => it.orderId == o.id) = []) :
    (orderJson s o).items = [nullItemObj] ∧
    orderJson s o ∈ (sortByTsDesc s.orders).map (orderJson s) ∧
    (getOrders s none).2 = ⟨200, RespBody.listOk "success"
        ((sortByTsDesc s.orders).map (orderJson s))⟩ ∧
    ∃ row, (getOrder s o.id none).2 = ⟨200, RespBody.readOk "success" (some row)⟩ ∧
      row.items = [nullItemObj] := by
  have hoj : ∀ o' : OrderRow, o'.id = o.id → (orderJson s o').items = [nullItemObj] := by
    intro o' ho'
    unfold orderJson
    rw [ho', hempty]
    rfl
  refine ⟨hoj o rfl, ?_, rfl, ?_⟩
  · exact List.mem_map.2 ⟨o, by simp [sortByTsDesc, ho], rfl⟩
  · cases hf : s.orders.find? (fun o' => o'.id == o.id) with
    | none =>
        exfalso
        rw [List.find?_eq_none] at hf
        exact hf o ho (by simp)
    | some o' =>
        refine ⟨orderJson s o', ?_, ?_⟩
        · show (s, (⟨200, RespBody.readOk "success"
              ((s.orders.find? (fun o' => o'.id == o.id)).map (orderJson s))⟩ : HResp)).2 = _
          rw [hf]
          rfl
        · exact hoj o' (by simpa using List.find?_some hf)

/-- Witness for C2's amended theorem at a concrete one-order store. -/
theorem zero_items_placeholder_witness :
    (orderJson oneOrderNoItems ⟨1, "Alice", 20, 3 / 2, 0⟩).items = [nullItemObj] ∧
    orderJson oneOrderNoItems ⟨1, "Alice", 20, 3 / 2, 0⟩
      ∈ (sortByTsDesc oneOrderNoItems.orders).map (orderJson oneOrderNoItems) ∧
    (getOrders oneOrderNoItems none).2 = ⟨200, RespBody.listOk "success"
        ((sortByTsDesc oneOrderNoItems.orders).map (orderJson oneOrderNoItems))⟩ ∧
    ∃ row, (getOrder oneOrderNoItems 1 none).2
        = ⟨200, RespBody.readOk "success" (some row)⟩ ∧
      row.items = [nullItemObj] :=
  zero_items_placeholder oneOrderNoItems ⟨1, "Alice", 20, 3 / 2, 0⟩ (by simp [oneOrderNoItems]) rfl

/-- Claim C2 counterexample: on a store holding one order with zero items,
Read returns that order with a nonempty `items` array (the all-null
placeholder), not the empty sequence the claim requires. -/
theorem zero_items_not_empty_cex :
    ∃ row, (getOrder oneOrderNoItems 1 none).2
        = ⟨200, RespBody.readOk "success" (some row)⟩ ∧
      row.items ≠ ([] : List ItemObj) := by
  refine ⟨⟨1, "Alice", 20, 3 / 2, 0, [nullItemObj]⟩, ?_, by decide⟩
  rfl

lemma sorted_head?_of_strict_max {l : List OrderRow} {o : OrderRow}
    (hs : l.Sorted tsGE) (hmem : o ∈ l)
    (hmax : ∀ x ∈ l, x ≠ o → x.timestamp < o.timestamp) :
    l.head? = some o := by
  cases l with
  | nil => cases hmem
  | cons a t =>
      have hao : a = o := by
        by_contra hao
        have hat : a.timestamp < o.timestamp := hmax a (List.mem_cons_self a t) hao
        have hot : o ∈ t := by
          rcases List.mem_cons.1 hmem with h | h
          · exact absurd h.symm hao
          · exact h
        have hle : tsGE a o := (List.sorted_cons.1 hs).1 o hot
        exact absurd hat (not_lt.2 hle)
      rw [hao]
      rfl

/-- Claim C6: after two consecutive creates, List answers success with all
stored orders sorted by creation timestamp descending (a permutation of the
table), the later-created order first and the earlier-created one behind it.
The hypothesis says every stored timestamp predates the current clock, which
holds in every store the application itself built. -/
theorem list_newest_first (s : Store) (p₁ p₂ : Payload) (s₂ : Store)
    (hclock : ∀ o ∈ s.orders, o.timestamp < s.clock)
    (hs₂ : s₂ = (postOrders (postOrders s p₁ none none).1 p₂ none none).1) :
    (getOrders s₂ none).2 = ⟨200, RespBody.listOk "success"
        ((sortByTsDesc s₂.orders).map (orderJson s₂))⟩ ∧
    List.Perm (sortByTsDesc s₂.orders) s₂.orders ∧
    List.Sorted tsGE (sortByTsDesc s₂.orders) ∧
    (sortByTsDesc s₂.orders).head?
      = some ⟨s.nextOrderId + 1, p₂.customerName, p₂.totalPrice, p₂.totalCarbonSaved,
          s.clock + 1⟩ ∧
    (⟨s.nextOrderId, p₁.customerName, p₁.totalPrice, p₁.totalCarbonSaved, s.clock⟩ : OrderRow)
      ∈ (sortByTsDesc s₂.orders).tail := by
  subst hs₂
  set row₁ : OrderRow :=
    ⟨s.nextOrderId, p₁.customerName, p₁.totalPrice, p₁.totalCarbonSaved, s.clock⟩ with hrow₁
  set row₂ : OrderRow :=
    ⟨s.nextOrderId + 1, p₂.customerName, p₂.totalPrice, p₂.totalCarbonSaved, s.clock + 1⟩
    with hrow₂
  have horders : (postOrders (postOrders s p₁ none none).1 p₂ none none).1.orders
      = (s.orders ++ [row₁]) ++ [row₂] := rfl
  have hsorted : List.Sorted tsGE
      (sortByTsDesc (postOrders (postOrders s p₁ none none).1 p₂ none none).1.orders) :=
    List.sorted_insertionSort tsGE _
  have hhead : (sortByTsDesc
      (postOrders (postOrders s p₁ none none).1 p₂ none none).1.orders).head? = some row₂ := by
    refine sorted_head?_of_strict_max hsorted ?_ ?_
    · simp [sortByTsDesc, horders]
    · intro x hx hne
      rw [sortByTsDesc, List.mem_insertionSort, horders] at hx
      rcases List.mem_append.1 hx with hx' | hx'
      · rcases List.mem_append.1 hx' with hxs | hx₁
        · exact (hclock x hxs).trans (Nat.lt_succ_self s.clock)
        · rw [List.mem_singleton.1 hx₁]
          exact Nat.lt_succ_self s.clock
      · exact absurd (List.mem_singleton.1 hx') hne
  refine ⟨rfl, List.perm_insertionSort tsGE _, hsorted, hhead, ?_⟩
  have hmem₁ : row₁ ∈ sortByTsDesc
      (postOrders (postOrders s p₁ none none).1 p₂ none none).1.orders := by
    simp [sortByTsDesc, horders]
  have hne : row₁ ≠ row₂ := by
    intro h
    have := congrArg OrderRow.id h
    simp [hrow₁, hrow₂] at this
  cases hl : sortByTsDesc
      (postOrders (postOrders s p₁ none none).1 p₂ none none).1.orders with
  | nil => rw [hl] at hhead; cases hhead
  | cons a t =>
      rw [hl] at hhead hmem₁
      have ha : a = row₂ := by
        have : some a = some row₂ := hhead
        exact Option.some.inj this
      rcases List.mem_cons.1 hmem₁ with h | h
      · exact absurd (h.trans ha) hne
      · exact h

/-- Witness for C6 at two concrete creates on the empty store. -/
theorem list_newest_first_witness :
    (getOrders (postOrders (postOrders emptyStore ⟨"A", [], 1, 0⟩ none none).1
        ⟨"B", [], 2, 0⟩ none none).1 none).2
      = ⟨200, RespBody.listOk "success"
        ((sortByTsDesc (postOrders (postOrders emptyStore ⟨"A", [], 1, 0⟩ none none).1
            ⟨"B", [], 2, 0⟩ none none).1.orders).map
          (orderJson (postOrders (postOrders emptyStore ⟨"A", [], 1, 0⟩ none none).1
            ⟨"B", [], 2, 0⟩ none none).1))⟩ ∧
    List.Perm (sortByTsDesc (postOrders (postOrders emptyStore ⟨"A", [], 1, 0⟩ none none).1
        ⟨"B", [], 2, 0⟩ none none).1.orders)
      (postOrders (postOrders emptyStore ⟨"A", [], 1, 0⟩ none none).1
        ⟨"B", [], 2, 0⟩ none none).1.orders ∧
    List.Sorted tsGE (sortByTsDesc (postOrders (postOrders emptyStore ⟨"A", [], 1, 0⟩
        none none).1 ⟨"B", [], 2, 0⟩ none none).1.orders) ∧
    (sortByTsDesc (postOrders (postOrders emptyStore ⟨"A", [], 1, 0⟩ none none).1
        ⟨"B", [], 2, 0⟩ none none).1.orders).head?
      = some ⟨emptyStore.nextOrderId + 1, "B", 2, 0, emptyStore.clock + 1⟩ ∧
    (⟨emptyStore.nextOrderId, "A", 1, 0, emptyStore.clock⟩ : OrderRow)
      ∈ (sortByTsDesc (postOrders (postOrders emptyStore ⟨"A", [], 1, 0⟩ none none).1
        ⟨"B", [], 2, 0⟩ none none).1.orders).tail :=
  list_newest_first emptyStore ⟨"A", [], 1, 0⟩ ⟨"B", [], 2, 0⟩ _
    (by simp [emptyStore]) rfl

/-- Claim C3 (amended): a storage failure at any callback-carrying step of
read-one, create, update or delete yields `{error: message}` with status 400,
while a storage failure in List yields `{error: message}` with status 500.
Later-step outcomes (`e`, `e₂`) are irrelevant once an earlier step failed. -/
theorem storage_failure_responses (s : Store) (id : ℕ) (p : Payload) (m : String)
    (e e₂ : Option String) :
    (getOrders s (some m)).2 = ⟨500, RespBody.err m⟩ ∧
    (getOrder s id (some m)).2 = ⟨400, RespBody.err m⟩ ∧
    (postOrders s p (some m) e).2 = ⟨400, RespBody.err m⟩ ∧
    (postOrders s p none (some m)).2 = ⟨400, RespBody.err m⟩ ∧
    (putOrder s id p (some m) e e₂).2 = ⟨400, RespBody.err m⟩ ∧
    (putOrder s id p none (some m) e).2 = ⟨400, RespBody.err m⟩ ∧
    (putOrder s id p none none (some m)).2 = ⟨400, RespBody.err m⟩ ∧
    (deleteOrder s id (some m) e).2 = ⟨400, RespBody.err m⟩ ∧
    (deleteOrder s id none (some m)).2 = ⟨400, RespBody.err m⟩ :=
  ⟨rfl, rfl, rfl, rfl, rfl, rfl, rfl, rfl, rfl⟩

/-- Claim C3 counterexample: a storage failure in List produces status 500,
not the claimed 400, though still with the `{error: message}` body. -/
theorem list_failure_status_cex :
    (getOrders emptyStore (some "boom")).2 = ⟨500, RespBody.err "boom"⟩ ∧
    (getOrders emptyStore (some "boom")).2.status ≠ 400 := by
  exact ⟨rfl, by decide⟩
